import Mathlib

/-
Verification of the job-coordination and episode-processing core of
src/video_downloader.py against its design specification.

The Python source is shallowly embedded below: external effects
(the yt-dlp subprocess, the filesystem, the Terabox HTTP endpoints)
are represented as explicit environment records whose fields give the
outcome of each external call; the control flow of the Python
functions is translated directly.
-/

/-! ## Configuration constants (source lines 15-19) -/

def MAX_RETRY_ATTEMPTS : Nat := 5

def REQUEST_DELAY : Nat := 2

def DOWNLOAD_DIR : String := "downloads"

def TRANSCRIPT_DIR : String := "transcripts"

/-! ## JobLedger (modelled from the spec)

The repository source contains no durable JobLedger component: the only
deduplication mechanism in src/video_downloader.py is the in-memory
`processed_episodes` set. The claim/staleness policy of spec section 4.1
is therefore modelled here from the spec text. -/

inductive JobStatus
  | processing
  | complete
deriving DecidableEq, Repr

structure LedgerEntry where
  status : JobStatus
  owner : String
  start_time : Nat
deriving DecidableEq, Repr

def STALENESS_THRESHOLD : Nat := 3600

/-- Modelled from the spec: the repository source has no `JobLedger`
(only its policy is described, in spec sections 4.1 and 8), so `try_claim`
is modelled from the spec words: it returns true and records a
`processing` claim iff no ledger entry exists, or the existing entry is
`processing` and older than the staleness threshold (3600 seconds,
compared by claim timestamp); it returns false if the status is
`complete`, or `processing` and not stale. -/
def try_claim (entry : Option LedgerEntry) (now : Nat) : Bool :=
  match entry with
  | none => true
  | some e =>
    match e.status with
    | JobStatus.complete => false
    | JobStatus.processing => decide (STALENESS_THRESHOLD < now - e.start_time)

/-! ## MediaFetcher adapter: `VideoDownloader._download_with_yt_dlp`
(source lines 442-498)

One download attempt runs the yt-dlp subprocess and then checks
`return_code == 0 and os.path.exists(output_path)`. The outcome of a
single attempt is abstracted by `AttemptOutcome`: whether the attempt
raised an exception (caught by the per-attempt `except` at line 489),
the subprocess return code, whether the destination file exists
afterwards, and its size (the source reads the size at line 482 only to
print it, never to test it). -/

structure AttemptOutcome where
  raised : Bool
  returnCode : Int
  fileExists : Bool
  fileSize : Nat
deriving DecidableEq, Repr

/-- The success test of one attempt (source line 481): the attempt did
not raise, yt-dlp exited with code 0, and the output file exists. -/
def attemptOk (o : AttemptOutcome) : Bool :=
  !o.raised && o.returnCode == 0 && o.fileExists

structure DownloadResult where
  success : Bool
  attemptsUsed : Nat
  sleeps : List Nat
deriving DecidableEq, Repr

/-- The retry loop of `_download_with_yt_dlp` (source lines 444-495):
`attempt` is the 0-based loop index, `fuel` the number of iterations
left. On success the function returns immediately; after every failed
attempt (including the last) it sleeps `REQUEST_DELAY * (attempt + 1)`
seconds and continues. -/
def downloadLoop (o : Nat → AttemptOutcome) (attempt : Nat) : Nat → DownloadResult
  | 0 => ⟨false, attempt, []⟩
  | fuel + 1 =>
    if attemptOk (o attempt) then
      ⟨true, attempt + 1, []⟩
    else
      let rest := downloadLoop o (attempt + 1) fuel
      ⟨rest.success, rest.attemptsUsed, REQUEST_DELAY * (attempt + 1) :: rest.sleeps⟩

/-- `_download_with_yt_dlp` as a whole: `for attempt in range(MAX_RETRY_ATTEMPTS)`,
then `return False` after the loop (source line 498). -/
def downloadWithYtDlp (o : Nat → AttemptOutcome) : DownloadResult :=
  downloadLoop o 0 MAX_RETRY_ATTEMPTS

/-- Number of failed attempts made in a run, each of which slept. -/
def failedCount (r : DownloadResult) : Nat :=
  if r.success then r.attemptsUsed - 1 else r.attemptsUsed

lemma downloadLoop_zero (o : Nat → AttemptOutcome) (a : Nat) :
    downloadLoop o a 0 = ⟨false, a, []⟩ := rfl

lemma downloadLoop_succ (o : Nat → AttemptOutcome) (a f : Nat) :
    downloadLoop o a (f + 1) =
      if attemptOk (o a) then
        ⟨true, a + 1, []⟩
      else
        ⟨(downloadLoop o (a + 1) f).success, (downloadLoop o (a + 1) f).attemptsUsed,
          REQUEST_DELAY * (a + 1) :: (downloadLoop o (a + 1) f).sleeps⟩ := rfl

lemma dl_step5 (o : Nat → AttemptOutcome) :
    downloadLoop o 0 5 =
      if attemptOk (o 0) then ⟨true, 1, []⟩
      else ⟨(downloadLoop o 1 4).success, (downloadLoop o 1 4).attemptsUsed,
        2 :: (downloadLoop o 1 4).sleeps⟩ := rfl

lemma dl_step4 (o : Nat → AttemptOutcome) :
    downloadLoop o 1 4 =
      if attemptOk (o 1) then ⟨true, 2, []⟩
      else ⟨(downloadLoop o 2 3).success, (downloadLoop o 2 3).attemptsUsed,
        4 :: (downloadLoop o 2 3).sleeps⟩ := rfl

lemma dl_step3 (o : Nat → AttemptOutcome) :
    downloadLoop o 2 3 =
      if attemptOk (o 2) then ⟨true, 3, []⟩
      else ⟨(downloadLoop o 3 2).success, (downloadLoop o 3 2).attemptsUsed,
        6 :: (downloadLoop o 3 2).sleeps⟩ := rfl

lemma dl_step2 (o : Nat → AttemptOutcome) :
    downloadLoop o 3 2 =
      if attemptOk (o 3) then ⟨true, 4, []⟩
      else ⟨(downloadLoop o 4 1).success, (downloadLoop o 4 1).attemptsUsed,
        8 :: (downloadLoop o 4 1).sleeps⟩ := rfl

lemma dl_step1 (o : Nat → AttemptOutcome) :
    downloadLoop o 4 1 =
      if attemptOk (o 4) then ⟨true, 5, []⟩ else ⟨false, 5, [10]⟩ := rfl

/-- Closed form of the 5-attempt retry loop. -/
lemma downloadWithYtDlp_unfold (o : Nat → AttemptOutcome) :
    downloadWithYtDlp o =
      if attemptOk (o 0) then ⟨true, 1, []⟩
      else if attemptOk (o 1) then ⟨true, 2, [2]⟩
      else if attemptOk (o 2) then ⟨true, 3, [2, 4]⟩
      else if attemptOk (o 3) then ⟨true, 4, [2, 4, 6]⟩
      else if attemptOk (o 4) then ⟨true, 5, [2, 4, 6, 8]⟩
      else ⟨false, 5, [2, 4, 6, 8, 10]⟩ := by
  by_cases h0 : attemptOk (o 0) <;> by_cases h1 : attemptOk (o 1) <;>
    by_cases h2 : attemptOk (o 2) <;> by_cases h3 : attemptOk (o 3) <;>
    by_cases h4 : attemptOk (o 4) <;>
    simp [downloadWithYtDlp, MAX_RETRY_ATTEMPTS, dl_step5, dl_step4, dl_step3,
      dl_step2, dl_step1, h0, h1, h2, h3, h4]

/-! ## Claims C1, C4, C5 -/

/-- Claim C1: for every job whose ledger entry is `processing`, `try_claim`
returns true (the job is reclaimable) when the claim start_time is more
than 3600 seconds in the past, and returns false when the claim is 3600
seconds old or younger. -/
theorem tryClaim_staleness (e : LedgerEntry) (now : Nat)
    (h : e.status = JobStatus.processing) :
    (3600 < now - e.start_time → try_claim (some e) now = true) ∧
    (now - e.start_time ≤ 3600 → try_claim (some e) now = false) := by
  constructor <;> intro hage <;>
    simp [try_claim, h, STALENESS_THRESHOLD] <;> omega

theorem tryClaim_staleness_witness :
    try_claim (some ⟨JobStatus.processing, "worker-1", 100⟩) 4000 = true ∧
    try_claim (some ⟨JobStatus.processing, "worker-1", 100⟩) 3700 = false :=
  ⟨(tryClaim_staleness ⟨JobStatus.processing, "worker-1", 100⟩ 4000 rfl).1 (by norm_num),
   (tryClaim_staleness ⟨JobStatus.processing, "worker-1", 100⟩ 3700 rfl).2 (by norm_num)⟩

/-- Claim C4 counterexample: an attempt whose subprocess exits with code 0
and whose destination file exists but has size zero is counted as a
successful download on the first attempt, with no retry and no sleep —
the source (line 481) checks `return_code == 0 and os.path.exists(...)`
and never inspects the file size, contrary to the claim that a zero-size
file is treated as a failed attempt and triggers a retry. -/
theorem downloadZeroSizeCountedSuccess :
    downloadWithYtDlp (fun _ => ⟨false, 0, true, 0⟩) = ⟨true, 1, []⟩ := rfl

/-- Claim C4 (amended): a download attempt is counted successful iff the
external extractor reports success (no exception, exit code 0) and the
destination file exists afterward, regardless of its size; the file size
is never inspected, so the whole fetch result is unchanged under any
change of the reported file sizes. -/
theorem downloadSuccessCondition (o : Nat → AttemptOutcome) :
    ((downloadWithYtDlp o).success = true ↔
      ∃ k, k < MAX_RETRY_ATTEMPTS ∧ (o k).raised = false ∧
        (o k).returnCode = 0 ∧ (o k).fileExists = true) ∧
    ∀ sz : Nat → Nat,
      downloadWithYtDlp (fun k => ⟨(o k).raised, (o k).returnCode, (o k).fileExists, sz k⟩) =
        downloadWithYtDlp o := by
  have hok : ∀ x : AttemptOutcome, attemptOk x = true ↔
      x.raised = false ∧ x.returnCode = 0 ∧ x.fileExists = true := by
    intro x
    simp [attemptOk, Bool.and_eq_true, and_assoc]
  constructor
  · rw [downloadWithYtDlp_unfold]
    by_cases h0 : attemptOk (o 0)
    · rw [if_pos h0]
      exact ⟨fun _ => ⟨0, by decide, (hok (o 0)).1 h0⟩, fun _ => rfl⟩
    · rw [if_neg h0]
      by_cases h1 : attemptOk (o 1)
      · rw [if_pos h1]
        exact ⟨fun _ => ⟨1, by decide, (hok (o 1)).1 h1⟩, fun _ => rfl⟩
      · rw [if_neg h1]
        by_cases h2 : attemptOk (o 2)
        · rw [if_pos h2]
          exact ⟨fun _ => ⟨2, by decide, (hok (o 2)).1 h2⟩, fun _ => rfl⟩
        · rw [if_neg h2]
          by_cases h3 : attemptOk (o 3)
          · rw [if_pos h3]
            exact ⟨fun _ => ⟨3, by decide, (hok (o 3)).1 h3⟩, fun _ => rfl⟩
          · rw [if_neg h3]
            by_cases h4 : attemptOk (o 4)
            · rw [if_pos h4]
              exact ⟨fun _ => ⟨4, by decide, (hok (o 4)).1 h4⟩, fun _ => rfl⟩
            · rw [if_neg h4]
              constructor
              · intro hs
                exact absurd hs (by decide)
              · rintro ⟨k, hk, ha, hb, hc⟩
                rw [show MAX_RETRY_ATTEMPTS = 5 from rfl] at hk
                interval_cases k
                · exact absurd ((hok (o 0)).2 ⟨ha, hb, hc⟩) h0
                · exact absurd ((hok (o 1)).2 ⟨ha, hb, hc⟩) h1
                · exact absurd ((hok (o 2)).2 ⟨ha, hb, hc⟩) h2
                · exact absurd ((hok (o 3)).2 ⟨ha, hb, hc⟩) h3
                · exact absurd ((hok (o 4)).2 ⟨ha, hb, hc⟩) h4
  · intro sz
    have hsame : ∀ k, attemptOk ⟨(o k).raised, (o k).returnCode, (o k).fileExists, sz k⟩ =
        attemptOk (o k) := fun k => rfl
    rw [downloadWithYtDlp_unfold, downloadWithYtDlp_unfold]
    simp [hsame]

/-- Claim C5: the fetch makes at most 5 attempts; each failed attempt
sleeps `REQUEST_DELAY * attempt_number` seconds (attempt numbers counted
from 1, REQUEST_DELAY = 2); and when every attempt fails the fetch
returns failure after exactly 5 attempts with sleeps 2,4,6,8,10. -/
theorem downloadRetryBudget (o : Nat → AttemptOutcome) :
    (downloadWithYtDlp o).attemptsUsed ≤ MAX_RETRY_ATTEMPTS ∧
    (downloadWithYtDlp o).sleeps =
      (List.range (failedCount (downloadWithYtDlp o))).map
        (fun k => REQUEST_DELAY * (k + 1)) ∧
    ((∀ k, k < MAX_RETRY_ATTEMPTS → attemptOk (o k) = false) →
      downloadWithYtDlp o = ⟨false, 5, [2, 4, 6, 8, 10]⟩) := by
  refine ⟨?_, ?_, ?_⟩
  · rw [downloadWithYtDlp_unfold]
    by_cases h0 : attemptOk (o 0) <;> by_cases h1 : attemptOk (o 1) <;>
      by_cases h2 : attemptOk (o 2) <;> by_cases h3 : attemptOk (o 3) <;>
      by_cases h4 : attemptOk (o 4) <;>
      simp [h0, h1, h2, h3, h4, MAX_RETRY_ATTEMPTS]
  · rw [downloadWithYtDlp_unfold]
    by_cases h0 : attemptOk (o 0) <;> by_cases h1 : attemptOk (o 1) <;>
      by_cases h2 : attemptOk (o 2) <;> by_cases h3 : attemptOk (o 3) <;>
      by_cases h4 : attemptOk (o 4) <;>
      simp [h0, h1, h2, h3, h4, failedCount, REQUEST_DELAY] <;>
      rfl
  · intro hall
    rw [downloadWithYtDlp_unfold]
    simp [hall 0 (by decide), hall 1 (by decide), hall 2 (by decide),
      hall 3 (by decide), hall 4 (by decide)]

theorem downloadRetryBudget_witness :
    downloadWithYtDlp (fun _ => ⟨true, 1, false, 0⟩) = ⟨false, 5, [2, 4, 6, 8, 10]⟩ :=
  (downloadRetryBudget (fun _ => ⟨true, 1, false, 0⟩)).2.2
    (fun k _ => by simp [attemptOk])

/-! ## EpisodePipeline: `VideoDownloader.process_episode` (source lines 500-589)

The environment collects the outcome of every external interaction the
function makes: availability of yt-dlp (checked in `download_video`,
line 436), the per-attempt download outcomes, the system temp directory,
the behaviour of `terabox.upload_file`, and which filesystem paths exist
(used for the transcript candidates). The deletion of the temporary
file (lines 531-536) is wrapped in try/except in the source and has no
effect on the result, so it is not tracked. -/

structure PipelineEnv where
  ytDlpAvailable : Bool
  attempts : Nat → AttemptOutcome
  tempDir : String
  upload : String → String → Option String
  fileExists : String → Bool

def episodeKey (drama_name : String) (idx : Nat) : String :=
  drama_name ++ "_" ++ toString idx

def episodeFilename (drama_name : String) (idx : Nat) : String :=
  drama_name ++ "_Ep_" ++ toString idx ++ ".mp4"

def tempPath (env : PipelineEnv) (drama_name : String) (idx : Nat) : String :=
  env.tempDir ++ "/" ++ episodeFilename drama_name idx

def teraboxPath (drama_name : String) (idx : Nat) : String :=
  "/dramas/" ++ drama_name ++ "/" ++ episodeFilename drama_name idx

/-- `os.path.basename`: the final path component. -/
def basename (p : String) : String :=
  (p.splitOn "/").getLastD p

/-- The fixed list of 4 transcript candidate filenames
(source lines 544-550). -/
def transcriptFiles (drama_name : String) (idx : Nat) : List String :=
  let base := TRANSCRIPT_DIR ++ "/" ++ drama_name ++ "_Ep_" ++ toString idx
  [base ++ "_English_T.txt", base ++ "_English.txt",
   base ++ "_Urdu_T.txt", base ++ "_Urdu.txt"]

/-- Remote destination of a transcript upload (source line 562). -/
def transcriptRemote (drama_name f : String) : String :=
  "/transcripts/" ++ drama_name ++ "/" ++ basename f

inductive EpisodeOutcome
  | skipped
  | downloadFailed
  | storeFailed
  | completed
deriving DecidableEq, Repr

structure EpisodeResult where
  result : Bool
  processed : List String
  outcome : EpisodeOutcome
  transcriptCount : Nat
  transcriptLinks : List (Option String)
  downloadAttempted : Bool
deriving DecidableEq, Repr

/-- `VideoDownloader.download_video` (source lines 428-440): creates the
output directory, then delegates to `_download_with_yt_dlp` if yt-dlp is
available, otherwise returns False. -/
def downloadVideo (env : PipelineEnv) (url output_path : String) : Bool :=
  if env.ytDlpAvailable then (downloadWithYtDlp env.attempts).success else false

/-- `VideoDownloader.process_episode` (source lines 500-589),
over the session-local `processed` set (a list of episode keys): an
episode already in the set is skipped with result False; otherwise the
video is downloaded to the temp path, uploaded via
`terabox.upload_file`, and on a non-None link the 4 transcript
candidates are scanned (each existing one is uploaded, the link only
printed) and the key is added to the processed set with result True.
Download failure and a None upload result leave the set unchanged and
return False. -/
def processEpisode (env : PipelineEnv) (processed : List String)
    (drama_name : String) (idx : Nat) (url : String) : EpisodeResult :=
  let key := episodeKey drama_name idx
  if key ∈ processed then
    ⟨false, processed, EpisodeOutcome.skipped, 0, [], false⟩
  else
    let temp := tempPath env drama_name idx
    let dest := teraboxPath drama_name idx
    if downloadVideo env url temp then
      match env.upload temp dest with
      | some _ =>
        let found := (transcriptFiles drama_name idx).filter env.fileExists
        let links := found.map (fun f => env.upload f (transcriptRemote drama_name f))
        ⟨true, key :: processed, EpisodeOutcome.completed, found.length, links, true⟩
      | none =>
        ⟨false, processed, EpisodeOutcome.storeFailed, 0, [], true⟩
    else
      ⟨false, processed, EpisodeOutcome.downloadFailed, 0, [], true⟩

/-! ## SeriesRunner: `VideoDownloader.process_drama_sequentially`
(source lines 591-655)

The per-episode loop (lines 637-647) calls `self.process_episode` with
no per-episode try/except; the only exception handler is the per-drama
one at line 653. Each episode call is modelled by its observable
outcome: `Except.ok b` when `process_episode` returns the boolean `b`,
`Except.error ()` when it raises an unhandled exception (for example
from the unguarded `os.makedirs` at line 434). The function reports a
(succeeded, total) pair only when the loop runs to completion; an
exception, or an empty playlist (line 631), yields no report. -/

def episodeLoop : List (Except Unit Bool) → Except Unit Nat
  | [] => Except.ok 0
  | r :: rest =>
    match r with
    | Except.ok b =>
      match episodeLoop rest with
      | Except.ok n => Except.ok (n + if b then 1 else 0)
      | Except.error e => Except.error e
    | Except.error e => Except.error e

/-- Number of episode calls that returned True. -/
def succeededCount (rs : List (Except Unit Bool)) : Nat :=
  rs.countP (fun r => match r with | Except.ok true => true | _ => false)

def processDramaSequentially (results : List (Except Unit Bool)) :
    Option (Nat × Nat) :=
  if results.isEmpty then none
  else
    match episodeLoop results with
    | Except.ok s => some (s, results.length)
    | Except.error _ => none

lemma episodeLoop_all_ok (rs : List (Except Unit Bool))
    (h : ∀ r ∈ rs, ∃ b, r = Except.ok b) :
    episodeLoop rs = Except.ok (succeededCount rs) := by
  induction rs with
  | nil => simp [episodeLoop, succeededCount]
  | cons r rest ih =>
    obtain ⟨b, hb⟩ := h r (by simp)
    subst hb
    have hrest := ih (fun r hr => h r (by simp [hr]))
    simp only [episodeLoop, hrest, succeededCount, List.countP_cons]
    cases b <;> simp [succeededCount]

/-! ## Claims C2, C3, C8, C6 -/

/-- A concrete environment in which every download attempt raises and
every upload fails; used by witnesses. -/
def envAllFail : PipelineEnv :=
  ⟨true, fun _ => ⟨true, 1, false, 0⟩, "/tmp", fun _ _ => none, fun _ => false⟩

/-- Claim C2: with no durable ledger backend in the source, claiming is
session-local only: `process_episode` proceeds to the download phase iff
the key drama_name_idx is absent from the in-memory processed set, and
when the key is present it returns False immediately with the state
unchanged (a Skipped outcome, not an error). -/
theorem processEpisode_sessionDedup (env : PipelineEnv) (p : List String)
    (d : String) (i : Nat) (u : String) :
    ((processEpisode env p d i u).downloadAttempted = true ↔ episodeKey d i ∉ p) ∧
    (episodeKey d i ∈ p →
      processEpisode env p d i u = ⟨false, p, EpisodeOutcome.skipped, 0, [], false⟩) := by
  by_cases hk : episodeKey d i ∈ p
  · simp [processEpisode, hk]
  · refine ⟨?_, fun h => absurd h hk⟩
    simp only [processEpisode, if_neg hk]
    split
    · split <;> simp [hk]
    · simp [hk]

theorem processEpisode_sessionDedup_witness :
    processEpisode envAllFail ["demo_1"] "demo" 1 "url1" =
      ⟨false, ["demo_1"], EpisodeOutcome.skipped, 0, [], false⟩ :=
  (processEpisode_sessionDedup envAllFail ["demo_1"] "demo" 1 "url1").2 (by decide)

/-- Claim C3: `process_episode` adds the job id drama_name_idx to the
session-local processed set iff the call reaches the Completed terminal
state (returns True); every False return (skip, download failure, store
failure) leaves the set unchanged. -/
theorem processEpisode_processedSetInvariant (env : PipelineEnv) (p : List String)
    (d : String) (i : Nat) (u : String) :
    ((processEpisode env p d i u).result = true ↔
      (processEpisode env p d i u).processed = episodeKey d i :: p) ∧
    ((processEpisode env p d i u).result = false ↔
      (processEpisode env p d i u).processed = p) ∧
    ((processEpisode env p d i u).result = true ↔
      (processEpisode env p d i u).outcome = EpisodeOutcome.completed) := by
  have hne : episodeKey d i :: p ≠ p := List.cons_ne_self _ _
  simp only [processEpisode]
  split
  · simp [Ne.symm hne]
  · split
    · split <;> simp [hne, Ne.symm hne]
    · simp [Ne.symm hne]

/-- Claim C8: for an episode that reaches the sidecar-attachment phase,
the success outcome (and the outcome state and the processed set) is
unchanged under any change of which transcript sidecar files exist and
of the sidecar upload results; only the reported count varies, it equals
the number of existing candidates among the fixed 4, and is at most 4. -/
theorem processEpisode_sidecarsNonblocking (env1 env2 : PipelineEnv)
    (p : List String) (d : String) (i : Nat) (u : String)
    (hy : env1.ytDlpAvailable = env2.ytDlpAvailable)
    (ha : env1.attempts = env2.attempts)
    (ht : env1.tempDir = env2.tempDir)
    (hu : env1.upload (tempPath env1 d i) (teraboxPath d i) =
      env2.upload (tempPath env2 d i) (teraboxPath d i)) :
    ((processEpisode env1 p d i u).result = (processEpisode env2 p d i u).result ∧
     (processEpisode env1 p d i u).outcome = (processEpisode env2 p d i u).outcome ∧
     (processEpisode env1 p d i u).processed = (processEpisode env2 p d i u).processed) ∧
    (processEpisode env1 p d i u).transcriptCount ≤ 4 ∧
    ((processEpisode env1 p d i u).outcome = EpisodeOutcome.completed →
      (processEpisode env1 p d i u).transcriptCount =
        ((transcriptFiles d i).filter env1.fileExists).length) := by
  have htp : tempPath env1 d i = tempPath env2 d i := by
    rw [tempPath, tempPath, ht]
  have hdv : downloadVideo env1 u (tempPath env1 d i) =
      downloadVideo env2 u (tempPath env2 d i) := by
    simp [downloadVideo, hy, ha]
  have hlen : ((transcriptFiles d i).filter env1.fileExists).length ≤ 4 :=
    le_trans (List.length_filter_le _ _) (by simp [transcriptFiles])
  by_cases hk : episodeKey d i ∈ p
  · simp [processEpisode, hk]
  · simp only [processEpisode, if_neg hk, hdv, hu]
    split
    · split <;> simp [hlen]
    · simp

theorem processEpisode_sidecarsNonblocking_witness :
    ((processEpisode ⟨true, fun _ => ⟨false, 0, true, 5⟩, "/tmp", fun _ _ => some "link", fun _ => false⟩ [] "demo" 1 "u").result =
       (processEpisode ⟨true, fun _ => ⟨false, 0, true, 5⟩, "/tmp", fun _ _ => some "link", fun _ => true⟩ [] "demo" 1 "u").result ∧
     (processEpisode ⟨true, fun _ => ⟨false, 0, true, 5⟩, "/tmp", fun _ _ => some "link", fun _ => false⟩ [] "demo" 1 "u").outcome =
       (processEpisode ⟨true, fun _ => ⟨false, 0, true, 5⟩, "/tmp", fun _ _ => some "link", fun _ => true⟩ [] "demo" 1 "u").outcome ∧
     (processEpisode ⟨true, fun _ => ⟨false, 0, true, 5⟩, "/tmp", fun _ _ => some "link", fun _ => false⟩ [] "demo" 1 "u").processed =
       (processEpisode ⟨true, fun _ => ⟨false, 0, true, 5⟩, "/tmp", fun _ _ => some "link", fun _ => true⟩ [] "demo" 1 "u").processed) ∧
    (processEpisode ⟨true, fun _ => ⟨false, 0, true, 5⟩, "/tmp", fun _ _ => some "link", fun _ => false⟩ [] "demo" 1 "u").transcriptCount ≤ 4 ∧
    ((processEpisode ⟨true, fun _ => ⟨false, 0, true, 5⟩, "/tmp", fun _ _ => some "link", fun _ => false⟩ [] "demo" 1 "u").outcome = EpisodeOutcome.completed →
      (processEpisode ⟨true, fun _ => ⟨false, 0, true, 5⟩, "/tmp", fun _ _ => some "link", fun _ => false⟩ [] "demo" 1 "u").transcriptCount =
        ((transcriptFiles "demo" 1).filter (fun _ => false)).length) :=
  processEpisode_sidecarsNonblocking
    ⟨true, fun _ => ⟨false, 0, true, 5⟩, "/tmp", fun _ _ => some "link", fun _ => false⟩
    ⟨true, fun _ => ⟨false, 0, true, 5⟩, "/tmp", fun _ _ => some "link", fun _ => true⟩
    [] "demo" 1 "u" rfl rfl rfl rfl

/-- Claim C6 counterexample: in the per-episode loop of
`process_drama_sequentially` there is no per-episode exception handler,
so when episode 2 raises an unhandled exception the series is aborted at
the drama-level handler: no (succeeded, total) count is reported, rather
than the claimed succeeded=2, total=3. -/
theorem dramaLoop_exception_aborts :
    processDramaSequentially [Except.ok true, Except.error (), Except.ok true] = none ∧
    processDramaSequentially [Except.ok true, Except.error (), Except.ok true] ≠
      some (2, 3) := by
  exact ⟨rfl, by decide⟩

/-- Claim C6 (amended): an episode failure surfaced as a False return
from `process_episode` — which is how a fetch failure surfaces, since
all fetch exceptions are caught inside the retry loop — does not abort
the series: whenever no episode call raises, the series reports
(number of True returns, total), and in particular 3 episodes where
episode 2 always fails to fetch yield succeeded=2, total=3. An exception
escaping `process_episode` is caught only at the drama boundary, not
per-episode, and aborts the remaining episodes with no count reported. -/
theorem dramaLoop_isolation (results : List (Except Unit Bool))
    (hne : results ≠ [])
    (hok : ∀ r ∈ results, ∃ b, r = Except.ok b) :
    processDramaSequentially results = some (succeededCount results, results.length) ∧
    processDramaSequentially [Except.ok true, Except.ok false, Except.ok true] =
      some (2, 3) ∧
    (processEpisode envAllFail [] "demo" 2 "url2").result = false := by
  refine ⟨?_, rfl, rfl⟩
  have hnotempty : results.isEmpty = false := by
    cases results with
    | nil => exact absurd rfl hne
    | cons a l => rfl
  simp only [processDramaSequentially, hnotempty, Bool.false_eq_true, if_false,
    episodeLoop_all_ok results hok]

theorem dramaLoop_isolation_witness :
    processDramaSequentially [Except.ok true, Except.ok false] = some (1, 2) :=
  (dramaLoop_isolation [Except.ok true, Except.ok false] (List.cons_ne_nil _ _)
    (by
      intro r hr
      rcases List.mem_cons.mp hr with rfl | hr2
      · exact ⟨true, rfl⟩
      · rcases List.mem_cons.mp hr2 with rfl | hr3
        · exact ⟨false, rfl⟩
        · simp at hr3)).1

/-! ## RemoteStore adapter: `TeraboxUploader` (source lines 45-377)

The environment gives the outcome of each external interaction:
`loggedIn` is the state left by `login()`; for each endpoint string,
`uploadResponse` is the outcome of `_try_all_domains` for an upload
request (either every domain raised, or a response with a status code,
a parsed errno — none when JSON parsing failed — and an optional fs_id);
`folderResponse` likewise for folder creation; `shareLink` is the
result of `get_share_link` for a file id; `getsizeRaises` is whether
`os.path.getsize(local_path)` at line 248 raises (file missing);
`localFsOk` is whether the makedirs/copy calls of the local fallback
succeed; `tempDir` and `cwd` stand for `tempfile.gettempdir()` and the
working directory used by `os.path.abspath`. -/

inductive HttpOutcome
  | raised
  | resp (status : Nat) (errno : Option Int) (fsId : Option Nat)
deriving DecidableEq, Repr

structure UploadEnv where
  loggedIn : Bool
  uploadResponse : String → HttpOutcome
  folderResponse : String → HttpOutcome
  shareLink : Nat → Option String
  getsizeRaises : Bool
  localFsOk : Bool
  tempDir : String
  cwd : String

/-- Python str.startswith, executable over the character lists. -/
def startswith (s pre : String) : Bool :=
  pre.data.isPrefixOf s.data

/-- `os.path.abspath` relative to the working directory. -/
def abspath (cwd p : String) : String :=
  if startswith p "/" then p else cwd ++ "/" ++ p

/-- The success test of one folder-creation endpoint (source lines
202-211): a 200 response whose JSON errno is 0 or 31061 (folder already
exists); a raised request or a JSON parse failure falls through. -/
def folderEndpointOk (r : HttpOutcome) : Bool :=
  match r with
  | HttpOutcome.raised => false
  | HttpOutcome.resp status errno _ =>
    status == 200 && (errno == some 0 || errno == some 31061)

/-- `TeraboxUploader.create_folder` (source lines 180-222): when not
logged in, success is simulated (line 184); a successful endpoint
returns True (line 209); when every endpoint fails it still returns
True "in fallback mode" (line 217); and the outer exception handler
also returns True (line 222). -/
def create_folder (env : UploadEnv) (folder_path : String) : Bool :=
  if !env.loggedIn then
    true
  else if folderEndpointOk (env.folderResponse "/api/create?opera=2") then
    true
  else if folderEndpointOk (env.folderResponse "/api/create") then
    true
  else
    true

/-- The local-storage fallback of `upload_file` (source lines 226-244,
repeated at 294-307 and 313-326): the file is saved under DOWNLOAD_DIR
keyed by the basename of the remote path; a file already in the temp
directory is copied there, any other file is referenced in place.
Returns the resulting link (None when the filesystem calls raise) and
the list of (source, destination) copies performed. -/
def localFallback (env : UploadEnv) (local_path remote_path : String) :
    Option String × List (String × String) :=
  if !env.localFsOk then (none, [])
  else
    let local_save_path := DOWNLOAD_DIR ++ "/" ++ basename remote_path
    if startswith local_path env.tempDir then
      (some ("file://" ++ abspath env.cwd local_save_path), [(local_path, local_save_path)])
    else
      (some ("file://" ++ abspath env.cwd local_path), [])

/-- The result of trying one upload endpoint (source lines 264-292): on
a 200 response with errno 0 the function returns the share link for the
returned fs_id when one is obtained, otherwise the generic success
message (line 288); any other response, a JSON parse failure or a
raised request falls through to the next endpoint. -/
def uploadEndpointResult (env : UploadEnv) (r : HttpOutcome) : Option String :=
  match r with
  | HttpOutcome.raised => none
  | HttpOutcome.resp status errno fsId =>
    if status == 200 && errno == some 0 then
      match fsId with
      | some fid =>
        match env.shareLink fid with
        | some link => some link
        | none => some "Uploaded to Terabox (link not available)"
      | none => some "Uploaded to Terabox (link not available)"
    else
      none

def uploadEndpoints : List String :=
  ["/api/upload?dir=/", "/xpan/file?method=upload", "/api/precreate"]

/-- The endpoint loop of `upload_file` (source lines 264-292). -/
def tryUploadEndpoints (env : UploadEnv) : List String → Option String
  | [] => none
  | e :: rest =>
    match uploadEndpointResult env (env.uploadResponse e) with
    | some link => some link
    | none => tryUploadEndpoints env rest

/-- `TeraboxUploader.upload_file` (source lines 224-329). Not logged in:
the local fallback runs immediately (lines 226-244). Logged in: the
file size is read (line 248; if this raises, the outer handler at line
309 runs the fallback), the parent folder is created via
`create_folder` (its result does not matter — C9), each upload endpoint
is tried in order, and when all fail the local fallback runs
(lines 294-307). Returns the link (or None) and the copies performed. -/
def upload_file (env : UploadEnv) (local_path remote_path : String) :
    Option String × List (String × String) :=
  if !env.loggedIn then
    localFallback env local_path remote_path
  else if env.getsizeRaises then
    localFallback env local_path remote_path
  else
    match tryUploadEndpoints env uploadEndpoints with
    | some link => (some link, [])
    | none => localFallback env local_path remote_path

/-! ## Claims C7, C9, C10 -/

/-- Claim C9: `create_folder` returns True for every input — not logged
in, every endpoint failing, or any exception — so a genuine remote
folder-creation failure is always reported as success. -/
theorem createFolder_alwaysTrue (env : UploadEnv) (folder_path : String) :
    create_folder env folder_path = true := by
  simp only [create_folder]
  split <;> [rfl; (split <;> [rfl; (split <;> rfl)])]

/-- Claim C7: when the remote backend fails (not logged in after every
login attempt, or every upload endpoint erroring) and the local
fallback filesystem operations succeed, `upload_file` returns a local
file reference (a non-None string) instead of None; the source has no
configuration requiring remote storage, so this holds for every run. -/
theorem uploadFile_localFallback (env : UploadEnv) (local_path remote_path : String)
    (hfs : env.localFsOk = true)
    (hremote : env.loggedIn = false ∨
      ∀ e ∈ uploadEndpoints, uploadEndpointResult env (env.uploadResponse e) = none) :
    ∃ s, (upload_file env local_path remote_path).1 = some s := by
  have hfb : ∃ s, (localFallback env local_path remote_path).1 = some s := by
    simp only [localFallback, hfs, Bool.not_true, Bool.false_eq_true, if_false]
    by_cases hst : startswith local_path env.tempDir
    · exact ⟨"file://" ++ abspath env.cwd (DOWNLOAD_DIR ++ "/" ++ basename remote_path),
        by simp [hst]⟩
    · exact ⟨"file://" ++ abspath env.cwd local_path, by simp [hst]⟩
  rcases hremote with hlog | hall
  · simpa only [upload_file, hlog, Bool.not_false, if_true] using hfb
  · by_cases hlog : env.loggedIn
    · by_cases hgs : env.getsizeRaises
      · simpa only [upload_file, hlog, Bool.not_true, Bool.false_eq_true, if_false,
          hgs, if_true] using hfb
      · have hnone : tryUploadEndpoints env uploadEndpoints = none := by
          simp only [uploadEndpoints, tryUploadEndpoints,
            hall "/api/upload?dir=/" (by simp [uploadEndpoints]),
            hall "/xpan/file?method=upload" (by simp [uploadEndpoints]),
            hall "/api/precreate" (by simp [uploadEndpoints])]
        simpa only [upload_file, hlog, Bool.not_true, Bool.false_eq_true, if_false,
          hgs, if_false, hnone] using hfb
    · simpa only [upload_file, Bool.not_eq_true', eq_false_of_ne_true hlog,
        Bool.not_false, if_true] using hfb

/-- A concrete environment whose remote side is entirely unavailable. -/
def envRemoteDown : UploadEnv :=
  ⟨false, fun _ => HttpOutcome.raised, fun _ => HttpOutcome.raised,
    fun _ => none, false, true, "/tmp", "/work"⟩

theorem uploadFile_localFallback_witness :
    ∃ s, (upload_file envRemoteDown "/tmp/demo_Ep_1.mp4" "/dramas/demo/demo_Ep_1.mp4").1 =
      some s :=
  uploadFile_localFallback envRemoteDown "/tmp/demo_Ep_1.mp4" "/dramas/demo/demo_Ep_1.mp4"
    rfl (Or.inl rfl)

/-- Claim C10: whenever `upload_file` takes the local-fallback path and
local_path does not start with the temp directory, no copy into the
local download directory is performed and the returned reference is
"file://" followed by the absolute path of the original local_path. -/
theorem uploadFile_fallbackNoCopy (env : UploadEnv) (local_path remote_path : String)
    (hfs : env.localFsOk = true)
    (hfb : env.loggedIn = false ∨ env.getsizeRaises = true ∨
      ∀ e ∈ uploadEndpoints, uploadEndpointResult env (env.uploadResponse e) = none)
    (hst : startswith local_path env.tempDir = false) :
    upload_file env local_path remote_path =
      (some ("file://" ++ abspath env.cwd local_path), []) := by
  have hloc : localFallback env local_path remote_path =
      (some ("file://" ++ abspath env.cwd local_path), []) := by
    simp [localFallback, hfs, hst]
  rcases hfb with hlog | hgs | hall
  · simp [upload_file, hlog, hloc]
  · by_cases hlog : env.loggedIn
    · simp [upload_file, hlog, hgs, hloc]
    · simp [upload_file, eq_false_of_ne_true hlog, hloc]
  · by_cases hlog : env.loggedIn
    · by_cases hgs : env.getsizeRaises
      · simp [upload_file, hlog, hgs, hloc]
      · have hnone : tryUploadEndpoints env uploadEndpoints = none := by
          simp only [uploadEndpoints, tryUploadEndpoints,
            hall "/api/upload?dir=/" (by simp [uploadEndpoints]),
            hall "/xpan/file?method=upload" (by simp [uploadEndpoints]),
            hall "/api/precreate" (by simp [uploadEndpoints])]
        simp [upload_file, hlog, hgs, hnone, hloc]
    · simp [upload_file, eq_false_of_ne_true hlog, hloc]

theorem uploadFile_fallbackNoCopy_witness :
    upload_file envRemoteDown "transcripts/demo_Ep_1_English.txt"
        "/transcripts/demo/demo_Ep_1_English.txt" =
      (some ("file://" ++ abspath "/work" "transcripts/demo_Ep_1_English.txt"), []) :=
  uploadFile_fallbackNoCopy envRemoteDown "transcripts/demo_Ep_1_English.txt"
    "/transcripts/demo/demo_Ep_1_English.txt" rfl (Or.inl rfl) (by decide)
